import Mathlib

/-!
# buoy_mavi configuration headers

A shallow embedding of the two `secrets.h` headers of the buoy_mavi ESP32
firmware (`buoy_mavi_lte/secrets.h` and `buoy_mavi_lte_bat/secrets.h`).

Each header is a flat list of `#define`s and global variables.  A header is
embedded as one value of the record `Profile`: one field per declared name,
with the source's name.  A name that only one of the two headers declares is
an `Option` field, `none` in the header that does not declare it.

C types are embedded as follows: `int` (32 bit on the ESP32) and integer
literals as `Int`, `uint16_t` as `Nat` obtained through `toUint16`,
`bool` as `Bool`, `const char*` / `const char[]` as `String`.
-/

namespace Physalia

/-! ## Machine integers -/

/-- Largest value of a C `int` on the ESP32 (32 bit two's complement). -/
def INT_MAX : Int := 2147483647

/-- Smallest value of a C `int` on the ESP32. -/
def INT_MIN : Int := -2147483648

/-- Reduction of a mathematical integer to the 32 bit two's complement value
with the same residue modulo `2^32`. -/
def wrapInt32 (z : Int) : Int := (z + 2147483648) % 4294967296 - 2147483648

/-- Product of two `int`s as the hardware computes it: modulo `2^32`, read as
a signed value. -/
def mulInt32 (a b : Int) : Int := wrapInt32 (a * b)

/-- Conversion of an integer initialiser to `uint16_t`: reduction modulo
`2^16`. -/
def toUint16 (z : Int) : Nat := (z % 65536).toNat

/-! ## The configuration record -/

/-- One `secrets.h` header.  Field names are the names the headers declare. -/
structure Profile where
  /-- Macro `#define pin_GNSS` -/
  pin_GNSS : Int
  /-- Macro `#define MODEM_PWKEY` (LTE-only header) -/
  MODEM_PWKEY : Option Int
  /-- Macro `#define pin_GSM` (LTE+battery header) -/
  pin_GSM : Option Int
  /-- Macro `#define LDR` (LTE+battery header) -/
  LDR : Option Int
  /-- Macro `#define uS_TO_S_FACTOR` -/
  uS_TO_S_FACTOR : Int
  /-- Global `bool DEEP_SLEEP_ACTIVATED` (LTE+battery header) -/
  DEEP_SLEEP_ACTIVATED : Option Bool
  /-- Global `int TIME_TO_SLEEP` -/
  TIME_TO_SLEEP : Int
  /-- Global `int RTK_ACQUISITION_PERIOD` -/
  RTK_ACQUISITION_PERIOD : Int
  /-- Global `int RTK_MAX_RESEARCH` -/
  RTK_MAX_RESEARCH : Int
  /-- Global `int ESP32_REBOOT` (LTE-only header) -/
  ESP32_REBOOT : Option Int
  /-- Initialiser of `RTC_DATA_ATTR int lastPeriodRecord` -/
  lastPeriodRecord : Int
  /-- Global `int ACQUISION_PERIOD_4G` (LTE+battery header) -/
  ACQUISION_PERIOD_4G : Option Int
  /-- Global `int BAT_PERIOD` (LTE+battery header) -/
  BAT_PERIOD : Option Int
  /-- Global `int GNSS_FREQ` (LTE+battery header) -/
  GNSS_FREQ : Option Int
  /-- Global `const char* mqttServer` -/
  mqttServer : String
  /-- Global `const int mqttPort` -/
  mqttPort : Int
  /-- Global `const char* mqttUser` -/
  mqttUser : String
  /-- Global `const char* mqttPassword` -/
  mqttPassword : String
  /-- Global `const char* mqtttopic` -/
  mqtttopic : String
  /-- Global `const char* mqtt_input` (LTE-only header) -/
  mqtt_input : Option String
  /-- Global `const char* mqttbat` (LTE+battery header) -/
  mqttbat : Option String
  /-- Global `const char matUuid[]` -/
  matUuid : String
  /-- Global `const char casterHost[]` -/
  casterHost : String
  /-- Global `const uint16_t casterPort` -/
  casterPort : Nat
  /-- Global `const char casterUser[]` -/
  casterUser : String
  /-- Global `const char casterUserPW[]` -/
  casterUserPW : String
  /-- Global `const char mountPoint[]` -/
  mountPoint : String
  /-- Global `const bool transmitLocation` -/
  transmitLocation : Bool
  deriving DecidableEq, Repr

/-- The header `buoy_mavi/esp32/buoy_mavi_lte/secrets.h` (LTE-only variant). -/
def buoy_mavi_lte : Profile where
  pin_GNSS := 32
  MODEM_PWKEY := some 4
  pin_GSM := none
  LDR := none
  uS_TO_S_FACTOR := 1000000
  DEEP_SLEEP_ACTIVATED := none
  TIME_TO_SLEEP := 300
  RTK_ACQUISITION_PERIOD := 120
  RTK_MAX_RESEARCH := 120
  ESP32_REBOOT := some 600
  lastPeriodRecord := 0
  ACQUISION_PERIOD_4G := none
  BAT_PERIOD := none
  GNSS_FREQ := none
  mqttServer := "mavi-mqtt.centipede.fr"
  mqttPort := 8090
  mqttUser := ""
  mqttPassword := ""
  mqtttopic := "buoy/mavi"
  mqtt_input := some "buoy/mavi/input"
  mqttbat := none
  matUuid := "'TESTv3_Rom'"
  casterHost := "caster.centipede.fr"
  casterPort := toUint16 2101
  casterUser := "hello"
  casterUserPW := "mavi"
  mountPoint := "CT"
  transmitLocation := false

/-- The header `buoy_mavi/esp32/buoy_mavi_lte_bat/secrets.h` (LTE+battery
variant). -/
def buoy_mavi_lte_bat : Profile where
  pin_GNSS := 33
  MODEM_PWKEY := none
  pin_GSM := some 32
  LDR := some 2
  uS_TO_S_FACTOR := 1000000
  DEEP_SLEEP_ACTIVATED := some true
  TIME_TO_SLEEP := 300
  RTK_ACQUISITION_PERIOD := 120
  RTK_MAX_RESEARCH := 120
  ESP32_REBOOT := none
  lastPeriodRecord := 0
  ACQUISION_PERIOD_4G := some 120
  BAT_PERIOD := some 10
  GNSS_FREQ := some 1
  mqttServer := "mavi-mqtt.centipede.fr"
  mqttPort := 8090
  mqttUser := ""
  mqttPassword := ""
  mqtttopic := "buoy/mavi"
  mqtt_input := none
  mqttbat := some "buoy/bat"
  matUuid := "'TESTv3_Rom'"
  casterHost := "caster.centipede.fr"
  casterPort := toUint16 2101
  casterUser := "hello"
  casterUserPW := "mavi"
  mountPoint := "CT"
  transmitLocation := false

/-- The profiles of the repository: one per header. -/
def profiles : List Profile := [buoy_mavi_lte, buoy_mavi_lte_bat]

/-- The pin numbers a header declares, in declaration order of the fields. -/
def declaredPins (p : Profile) : List Int :=
  p.pin_GNSS :: (p.MODEM_PWKEY.toList ++ p.pin_GSM.toList ++ p.LDR.toList)

/-- The MQTT topics a header declares. -/
def declaredTopics (p : Profile) : List String :=
  p.mqtttopic :: (p.mqtt_input.toList ++ p.mqttbat.toList)

/-- The second-valued durations a header declares. -/
def declaredDurations (p : Profile) : List Int :=
  [p.TIME_TO_SLEEP, p.RTK_ACQUISITION_PERIOD, p.RTK_MAX_RESEARCH]
    ++ p.ESP32_REBOOT.toList ++ p.ACQUISION_PERIOD_4G.toList ++ p.BAT_PERIOD.toList

/-- The duty-cycle parameters a header declares: the durations and the GNSS
sample frequency. -/
def declaredDutyCycle (p : Profile) : List Int :=
  declaredDurations p ++ p.GNSS_FREQ.toList

/-! ## The persistent wake counter -/

/-- A product that fits a C `int` is computed exactly. -/
theorem mulInt32_exact (a b : Int) (hlo : INT_MIN ≤ a * b) (hhi : a * b ≤ INT_MAX) :
    mulInt32 a b = a * b := by
  unfold mulInt32 wrapInt32
  unfold INT_MIN at hlo
  unfold INT_MAX at hhi
  have h : (a * b + 2147483648) % 4294967296 = a * b + 2147483648 :=
    Int.emod_eq_of_lt (by omega) (by omega)
  rw [h]
  omega

/-- C1: the LTE-only header gives sleep duration `TIME_TO_SLEEP = 300`, RTK
acquisition period `RTK_ACQUISITION_PERIOD = 120`, RTK max research
`RTK_MAX_RESEARCH = 120`, MQTT port `mqttPort = 8090` and caster port
`casterPort = 2101`. -/
theorem lte_profile_values :
    buoy_mavi_lte.TIME_TO_SLEEP = 300
    ∧ buoy_mavi_lte.RTK_ACQUISITION_PERIOD = 120
    ∧ buoy_mavi_lte.RTK_MAX_RESEARCH = 120
    ∧ buoy_mavi_lte.mqttPort = 8090
    ∧ buoy_mavi_lte.casterPort = 2101 := by
  decide

/-- C2: the LTE+battery header has the MQTT and caster endpoints of the
LTE-only header, field by field (`mqttServer`, `mqttPort`, `casterHost`,
`casterPort`, `casterUser`, `casterUserPW`, `mountPoint`), and declares
`pin_GSM = 32`, `pin_GNSS = 33`, `BAT_PERIOD = 10` and `GNSS_FREQ = 1`. -/
theorem lte_bat_profile_values :
    buoy_mavi_lte_bat.mqttServer = buoy_mavi_lte.mqttServer
    ∧ buoy_mavi_lte_bat.mqttPort = buoy_mavi_lte.mqttPort
    ∧ buoy_mavi_lte_bat.casterHost = buoy_mavi_lte.casterHost
    ∧ buoy_mavi_lte_bat.casterPort = buoy_mavi_lte.casterPort
    ∧ buoy_mavi_lte_bat.casterUser = buoy_mavi_lte.casterUser
    ∧ buoy_mavi_lte_bat.casterUserPW = buoy_mavi_lte.casterUserPW
    ∧ buoy_mavi_lte_bat.mountPoint = buoy_mavi_lte.mountPoint
    ∧ buoy_mavi_lte_bat.pin_GSM = some 32
    ∧ buoy_mavi_lte_bat.pin_GNSS = 33
    ∧ buoy_mavi_lte_bat.BAT_PERIOD = some 10
    ∧ buoy_mavi_lte_bat.GNSS_FREQ = some 1 := by
  decide

/-- C3: in every profile of the repository the RTK acquisition period is at
most the RTK max research period. -/
theorem rtk_window_consistent (p : Profile) (hp : p ∈ profiles) :
    p.RTK_ACQUISITION_PERIOD ≤ p.RTK_MAX_RESEARCH := by
  revert p
  decide

/-- C3 at the LTE+battery header. -/
theorem rtk_window_consistent_witness :
    buoy_mavi_lte_bat ∈ profiles
    ∧ buoy_mavi_lte_bat.RTK_ACQUISITION_PERIOD ≤ buoy_mavi_lte_bat.RTK_MAX_RESEARCH :=
  ⟨by decide, rtk_window_consistent buoy_mavi_lte_bat (by decide)⟩

/-- C4: in every profile the declared pin numbers are non-negative and
pairwise distinct: `pin_GNSS = 32` and `MODEM_PWKEY = 4` in the LTE-only
header, `pin_GNSS = 33`, `pin_GSM = 32` and `LDR = 2` in the LTE+battery
header. -/
theorem pins_unique :
    (∀ p ∈ profiles, (declaredPins p).Nodup ∧ ∀ x ∈ declaredPins p, 0 ≤ x)
    ∧ declaredPins buoy_mavi_lte = [32, 4]
    ∧ buoy_mavi_lte.pin_GNSS = 32
    ∧ buoy_mavi_lte.MODEM_PWKEY = some 4
    ∧ buoy_mavi_lte.pin_GNSS ≠ 4
    ∧ declaredPins buoy_mavi_lte_bat = [33, 32, 2]
    ∧ buoy_mavi_lte_bat.pin_GNSS = 33
    ∧ buoy_mavi_lte_bat.pin_GSM = some 32
    ∧ buoy_mavi_lte_bat.LDR = some 2
    ∧ buoy_mavi_lte_bat.pin_GNSS ≠ 32
    ∧ buoy_mavi_lte_bat.pin_GNSS ≠ 2
    ∧ buoy_mavi_lte_bat.pin_GSM ≠ buoy_mavi_lte_bat.LDR := by
  decide

/-- C5: in every profile `mqttPort` and `casterPort` are in `1..65535`,
`mqttServer`, `casterHost` and `mountPoint` are non-empty and every declared
MQTT topic (`mqtttopic`, and `mqtt_input` or `mqttbat`) is non-empty; the
credentials `mqttUser` and `mqttPassword` are empty, which the domain
allows. -/
theorem connectivity_in_domain :
    (∀ p ∈ profiles,
        1 ≤ p.mqttPort ∧ p.mqttPort ≤ 65535
        ∧ 1 ≤ p.casterPort ∧ p.casterPort ≤ 65535
        ∧ p.mqttServer ≠ "" ∧ p.casterHost ≠ "" ∧ p.mountPoint ≠ ""
        ∧ (∀ t ∈ declaredTopics p, t ≠ "")
        ∧ p.mqttUser = "" ∧ p.mqttPassword = "")
    ∧ declaredTopics buoy_mavi_lte = ["buoy/mavi", "buoy/mavi/input"]
    ∧ declaredTopics buoy_mavi_lte_bat = ["buoy/mavi", "buoy/bat"] := by
  decide

/-- C6, as stated, fails: the LTE+battery header declares no reboot watchdog
period `ESP32_REBOOT`, so not every profile declares a positive one. -/
theorem esp32_reboot_not_in_every_profile :
    ¬ ∀ p ∈ profiles, ∃ v, p.ESP32_REBOOT = some v ∧ 0 < v := by
  intro h
  obtain ⟨v, hv, _⟩ := h buoy_mavi_lte_bat (by decide)
  cases hv

/-- C6, amended: every profile declares a positive `TIME_TO_SLEEP`,
`RTK_ACQUISITION_PERIOD` and `RTK_MAX_RESEARCH`, and every duty-cycle
parameter a profile declares is positive; `ESP32_REBOOT` (600) is declared by
the LTE-only header alone; the LTE+battery header declares
`ACQUISION_PERIOD_4G = 120`, `BAT_PERIOD = 10`, `GNSS_FREQ = 1` and
`DEEP_SLEEP_ACTIVATED = true`; the sleep duration is positive wherever deep
sleep is enabled. -/
theorem duty_cycle_positive :
    (∀ p ∈ profiles,
        0 < p.TIME_TO_SLEEP ∧ 0 < p.RTK_ACQUISITION_PERIOD ∧ 0 < p.RTK_MAX_RESEARCH
        ∧ (∀ d ∈ declaredDutyCycle p, 0 < d)
        ∧ (p.DEEP_SLEEP_ACTIVATED = some true → 0 < p.TIME_TO_SLEEP))
    ∧ declaredDutyCycle buoy_mavi_lte = [300, 120, 120, 600]
    ∧ declaredDutyCycle buoy_mavi_lte_bat = [300, 120, 120, 120, 10, 1]
    ∧ buoy_mavi_lte.ESP32_REBOOT = some 600
    ∧ buoy_mavi_lte_bat.ESP32_REBOOT = none
    ∧ buoy_mavi_lte_bat.ACQUISION_PERIOD_4G = some 120
    ∧ buoy_mavi_lte_bat.BAT_PERIOD = some 10
    ∧ buoy_mavi_lte_bat.GNSS_FREQ = some 1
    ∧ buoy_mavi_lte_bat.DEEP_SLEEP_ACTIVATED = some true
    ∧ buoy_mavi_lte.DEEP_SLEEP_ACTIVATED = none := by
  decide

/-- C7, as stated, fails: the two headers carry the same `matUuid`. -/
theorem matUuid_not_distinct :
    ¬ (buoy_mavi_lte.matUuid ≠ buoy_mavi_lte_bat.matUuid) := by
  decide

/-- C7, amended: the material UUID of both headers is the same non-empty
string, `'TESTv3_Rom'`. -/
theorem matUuid_shared :
    buoy_mavi_lte.matUuid = "'TESTv3_Rom'"
    ∧ buoy_mavi_lte_bat.matUuid = "'TESTv3_Rom'"
    ∧ buoy_mavi_lte.matUuid = buoy_mavi_lte_bat.matUuid
    ∧ buoy_mavi_lte.matUuid ≠ "" := by
  decide

/-- C10: in both profiles every second-valued duration times `uS_TO_S_FACTOR`
(1000000) is at most `2^31 - 1`, so the 32 bit signed product equals the exact
product: `TIME_TO_SLEEP`, `RTK_ACQUISITION_PERIOD`, `RTK_MAX_RESEARCH`,
`ESP32_REBOOT` in the LTE-only header and `TIME_TO_SLEEP`,
`RTK_ACQUISITION_PERIOD`, `RTK_MAX_RESEARCH`, `ACQUISION_PERIOD_4G`,
`BAT_PERIOD` in the LTE+battery header. -/
theorem microsecond_conversion_exact :
    (∀ p ∈ profiles, p.uS_TO_S_FACTOR = 1000000
        ∧ ∀ v ∈ declaredDurations p,
            v * p.uS_TO_S_FACTOR ≤ 2 ^ 31 - 1
            ∧ v * p.uS_TO_S_FACTOR ≤ INT_MAX
            ∧ INT_MIN ≤ v * p.uS_TO_S_FACTOR
            ∧ mulInt32 v p.uS_TO_S_FACTOR = v * p.uS_TO_S_FACTOR)
    ∧ declaredDurations buoy_mavi_lte = [300, 120, 120, 600]
    ∧ declaredDurations buoy_mavi_lte_bat = [300, 120, 120, 120, 10] := by
  decide

end Physalia
